import Mathlib

/-!
Shallow embedding of the Dogecoin security watchdog engine: the canonical
(feature-complete) watchdog service class, the retrying helpers of the RPC
service, and the default threshold configuration.

Modelling conventions:
* JavaScript IEEE-754 numbers are modelled as exact rationals; the claims
  under study compare ratios and averages, where exact arithmetic matches
  the source expressions.
* `JsNum := Option ℚ` models a JavaScript numeric slot whose content can be
  `null`, `undefined` or `NaN` (all collapsed to `none`): arithmetic
  propagates `none`, and every ordering comparison involving `none` is
  false, exactly as NaN compares.  Division by zero (which JavaScript sends
  to ±Infinity) occurs on no guarded path of the engine and maps to `none`.
* The `Date.now()` / `Math.random()` material used by `generateAlertId` is
  modelled as an input stream `fresh` of (id, timestamp) pairs carried in
  the watchdog state and consumed one pair per created alert.
* The outcomes of node RPC round-trips are inputs: the per-tick batch fetch
  is an `Except` value, and the auxiliary fetches made inside the 51%-attack
  checks are carried by a `TickEnv` record.
* Display-only message strings keep their wording but abbreviate the
  `toFixed`/`toISOString` formatting of interpolated numbers; no claim
  inspects those substrings.  Structured alert `data` payloads keep exactly
  the fields some claim reads (`method`, `code`, `forkDepth`); the remaining
  diagnostic entries are dropped.
-/

namespace DogecoinWatchdog

/-- A JavaScript numeric slot: `none` stands for `null`, `undefined` or `NaN`. -/
abbrev JsNum := Option ℚ

/-- JavaScript `+` on numeric slots: NaN-propagating addition. -/
def jsAdd : JsNum → JsNum → JsNum
  | some a, some b => some (a + b)
  | _, _ => none

/-- JavaScript `*` on numeric slots: NaN-propagating multiplication. -/
def jsMul : JsNum → JsNum → JsNum
  | some a, some b => some (a * b)
  | _, _ => none

/-- JavaScript `/` on numeric slots: NaN-propagating; a zero divisor (±Infinity
in JavaScript, never produced on a guarded path of this engine) maps to `none`. -/
def jsDiv : JsNum → JsNum → JsNum
  | some a, some b => if b = 0 then none else some (a / b)
  | _, _ => none

/-- JavaScript `>` on numeric slots: false whenever either side is `none`. -/
def jsGt : JsNum → JsNum → Bool
  | some a, some b => decide (b < a)
  | _, _ => false

/-- JavaScript `<` on numeric slots: false whenever either side is `none`. -/
def jsLt : JsNum → JsNum → Bool
  | some a, some b => decide (a < b)
  | _, _ => false

/-- JavaScript truthiness of a numeric slot (`null`/`NaN`/`0` are falsy). -/
def jsTruthy : JsNum → Bool
  | none => false
  | some x => decide (x ≠ 0)

/-- Rendering of a rational for display-only message strings. -/
def qStr (x : ℚ) : String := toString x.num ++ "/" ++ toString x.den

/-- Rendering of a numeric slot for display-only message strings. -/
def jsStr : JsNum → String
  | none => "NaN"
  | some x => qStr x

/-- JavaScript `arr.slice(-n)`: the last `n` elements (the whole list when it
is shorter than `n`). -/
def sliceLast (n : Nat) (l : List α) : List α := l.drop (l.length - n)

/-- Severity levels, as documented on `createAlert`. -/
inductive Severity
  | LOW
  | MEDIUM
  | HIGH
  | CRITICAL
deriving DecidableEq, Repr

/-- Alert types produced by the canonical watchdog. -/
inductive AlertType
  | SYSTEM_ERROR
  | LOW_NODE_COUNT
  | MEMPOOL_FLOOD
  | HASH_RATE_SPIKE
  | HASH_RATE_DROP
  | DIFFICULTY_SPIKE
  | DEEP_REORGANIZATION
  | FREQUENT_REORGANIZATIONS
  | HASHRATE_SURGE
  | SUSPICIOUS_BLOCK_PATTERN
  | RAPID_BLOCK_GENERATION
  | MEMPOOL_VOLATILITY
deriving DecidableEq, Repr

/-- Overall security status returned by `getOverallStatus`. -/
inductive Status
  | OFFLINE
  | SECURE
  | MEDIUM_ALERT
  | HIGH_ALERT
  | CRITICAL_ALERT
deriving DecidableEq, Repr

/-- The `RPCError` class of the RPC service (message, numeric code, method). -/
structure RPCErrorInfo where
  message : String
  code : Int
  method : String
deriving DecidableEq, Repr

/-- A thrown JavaScript error, distinguishing typed `RPCError` instances from
generic `Error` objects (the `instanceof RPCError` test in the tick handler). -/
inductive JsError
  | rpc (e : RPCErrorInfo)
  | generic (message : String)
deriving DecidableEq, Repr

/-- The `.message` property of a thrown error. -/
def JsError.message : JsError → String
  | rpc e => e.message
  | generic m => m

/-- The `.code` property of a thrown error (`undefined` on generic errors). -/
def errCode : JsError → Option Int
  | JsError.rpc e => some e.code
  | JsError.generic _ => none

/-- Structured alert payload.  Only the fields read by some claim are kept;
the remaining diagnostic entries of the source payloads are dropped. -/
structure AlertData where
  method : Option String := none
  code : Option Int := none
  forkDepth : Option Nat := none
deriving DecidableEq, Repr

/-- An alert record as built by `createAlert`. -/
structure Alert where
  id : String
  type : AlertType
  severity : Severity
  message : String
  data : AlertData
  timestamp : String
  acknowledged : Bool
deriving DecidableEq, Repr

/-- One entry of a metrics series.  The source pushes objects of three
different shapes into these arrays ({value, timestamp} from `updateMetrics`,
{timestamp, hashrate, difficulty} from the surge check, {timestamp, size,
bytes} from the volatility check); absent fields read as `undefined`, hence
the `Option` fields.  The numeric `Date.now()` timestamps are not modelled:
no code path reads them. -/
structure MetricPoint where
  value : Option ℚ := none
  hashrate : Option ℚ := none
  difficulty : Option ℚ := none
  size : Option ℚ := none
  bytes : Option ℚ := none
  tsIso : Option String := none
deriving DecidableEq, Repr

/-- The metrics storage structure. -/
structure Metrics where
  hashRate : List MetricPoint
  difficulty : List MetricPoint
  blockTimes : List MetricPoint
  networkNodes : List MetricPoint
  mempool : List MetricPoint
  orphanBlocks : Nat
deriving DecidableEq, Repr

/-- `initializeMetrics` (renamed: `initMetrics`). -/
def initMetrics : Metrics :=
  { hashRate := [], difficulty := [], blockTimes := [], networkNodes := [],
    mempool := [], orphanBlocks := 0 }

/-- The baselines structure. -/
structure Baselines where
  avgHashRate : JsNum
  avgBlockTime : JsNum
  avgDifficulty : JsNum
  avgMempoolSize : JsNum
  lastCalculated : Option String
deriving DecidableEq, Repr

/-- `initializeBaselines` (renamed: `initBaselines`): 1 minute block time. -/
def initBaselines : Baselines :=
  { avgHashRate := none, avgBlockTime := some 60, avgDifficulty := none,
    avgMempoolSize := none, lastCalculated := none }

/-- The security threshold configuration record. -/
structure Thresholds where
  hashRateSpike : ℚ
  hashRateDrop : ℚ
  blockTimeAnomaly : ℚ
  difficultySpike : ℚ
  mempoolFlood : Nat
  lowNodeCount : Nat
  orphanBlockThreshold : Nat
deriving DecidableEq, Repr

/-- The default thresholds of the configuration module. -/
def defaultThresholds : Thresholds :=
  { hashRateSpike := 5, hashRateDrop := 3 / 10, blockTimeAnomaly := 3,
    difficultySpike := 3, mempoolFlood := 10000, lowNodeCount := 50,
    orphanBlockThreshold := 5 }

/-- One chain tip as reported by `getchaintips`. -/
structure ChainTip where
  status : String
  branchlen : Nat
deriving DecidableEq, Repr

/-- A block as returned by `getblock` (the fields the watchdog reads). -/
structure Block where
  time : Int
  height : Int
  hash : String
deriving DecidableEq, Repr

/-- The `getblockchaininfo` fields the watchdog reads. -/
structure BlockchainInfo where
  blocks : Int
  difficulty : ℚ
  initialblockdownload : Bool
deriving DecidableEq, Repr

/-- The `getnetworkinfo` fields the watchdog reads. -/
structure NetworkInfo where
  networkhashps : ℚ
deriving DecidableEq, Repr

/-- The `getmempoolinfo` fields the watchdog reads. -/
structure MempoolInfo where
  size : Nat
  bytes : Nat
deriving DecidableEq, Repr

/-- One peer entry of `getpeerinfo`; only the list length is ever read. -/
structure Peer where
  addr : String := ""
deriving DecidableEq, Repr

/-- The per-tick snapshot assembled from the four parallel RPC calls. -/
structure CurrentData where
  blockchain : BlockchainInfo
  network : NetworkInfo
  mempool : MempoolInfo
  peers : List Peer
  timestamp : String
deriving DecidableEq, Repr

/-- The `getNodeInfo` aggregate used by `calculateBaselines`. -/
structure NodeInfo where
  blockchain : BlockchainInfo
  mempool : MempoolInfo
deriving DecidableEq, Repr

/-- Outcomes of the auxiliary RPC round-trips a tick can make inside the
51%-attack checks (inputs to the tick, one record per tick):
`chainTips` is the result of `rpc.getChainTips` (that wrapper already maps
failures to `[]`), `blockFetch` gives, per walk-back step, the two block
times obtained by the `getblockhash`/`getblock` pair (`none` = the step
threw), and `mempoolFetch` is the outcome of `rpc.getMempoolInfo`
(`none` = it threw and the inner catch swallows the failure). -/
structure TickEnv where
  chainTips : List ChainTip
  blockFetch : List (Option Block)
  mempoolFetch : Option MempoolInfo
deriving Repr

/-- The watchdog service state.  `fresh` models the `Date.now()` /
`Math.random()` source behind `generateAlertId`: a stream of
(alert id, ISO timestamp) pairs, one pair consumed per created alert. -/
structure WState where
  isMonitoring : Bool
  alerts : List Alert
  metrics : Metrics
  baselines : Baselines
  thresholds : Thresholds
  fresh : List (String × String)
deriving DecidableEq, Repr

/-- The constructor: monitoring off, empty ledger, fresh metrics and
baselines, configured thresholds. -/
def mkWatchdog (fresh : List (String × String)) : WState :=
  { isMonitoring := false, alerts := [], metrics := initMetrics,
    baselines := initBaselines, thresholds := defaultThresholds, fresh := fresh }

/-- The alert value `createAlert` builds from its arguments and one
(id, timestamp) pair. -/
def mkAlert (ty : AlertType) (sev : Severity) (msg : String) (data : AlertData)
    (idts : String × String) : Alert :=
  { id := idts.1, type := ty, severity := sev, message := msg, data := data,
    timestamp := idts.2, acknowledged := false }

/-- `createAlert`: build the alert, `unshift` it onto the ledger, then
`slice(0, 1000)` — keep the last 1000 alerts. -/
def createAlert (ty : AlertType) (sev : Severity) (msg : String)
    (data : AlertData) (st : WState) : WState :=
  let alert := mkAlert ty sev msg data (st.fresh.headD ("alert", ""))
  { st with alerts := (alert :: st.alerts).take 1000, fresh := st.fresh.tail }

/-- `calculateHashRate`: `difficulty * 2^32 / 60`, converted to TH/s. -/
def calculateHashRate (difficulty : ℚ) : ℚ :=
  let hashesPerSecond := difficulty * 2 ^ 32 / 60
  hashesPerSecond / 10 ^ 12

/-- `calculateAverage`: 0 on the empty array, else sum / length.  Takes
numeric slots because the surge and volatility checks feed it projections
that can read `undefined` off mixed-shape metric entries. -/
def calculateAverage (values : List JsNum) : JsNum :=
  if values.length = 0 then some 0
  else jsDiv (values.foldl jsAdd (some 0)) (some (values.length : ℚ))

/-- Mathematical average of a list of rationals (0 when empty), used to state
claims; bridged to `calculateAverage` by `calculateAverage_map_some`. -/
def avgQ (l : List ℚ) : ℚ := l.sum / (l.length : ℚ)

/-- `checkLowNodeCount`: MEDIUM alert when below the threshold. -/
def checkLowNodeCount (nodeCount : Nat) (st : WState) : WState :=
  if nodeCount < st.thresholds.lowNodeCount then
    createAlert AlertType.LOW_NODE_COUNT Severity.MEDIUM
      ("⚠️ LOW NODE COUNT! Only " ++ toString nodeCount ++
        " connections (threshold: " ++ toString st.thresholds.lowNodeCount ++ ")")
      {} st
  else st

/-- `checkMempoolFlooding`: HIGH alert when above the threshold. -/
def checkMempoolFlooding (mempoolSize : Nat) (st : WState) : WState :=
  if mempoolSize > st.thresholds.mempoolFlood then
    createAlert AlertType.MEMPOOL_FLOOD Severity.HIGH
      ("🚨 MEMPOOL FLOODING DETECTED! " ++ toString mempoolSize ++
        " pending transactions (threshold: " ++ toString st.thresholds.mempoolFlood ++ ")")
      {} st
  else st

/-- `checkHashRateAnomalies` (the long-window ratio detector): CRITICAL
spike above `hashRateSpike`, HIGH drop below `hashRateDrop`. -/
def checkHashRateAnomalies (currentDifficulty : ℚ) (st : WState) : WState :=
  let currentHashRate := calculateHashRate currentDifficulty
  let baselineHashRate := st.baselines.avgHashRate
  let r := jsDiv (some currentHashRate) baselineHashRate
  if jsGt r (some st.thresholds.hashRateSpike) then
    createAlert AlertType.HASH_RATE_SPIKE Severity.CRITICAL
      ("🚨 MASSIVE HASH RATE SPIKE! " ++ jsStr r ++ "x increase detected (" ++
        qStr currentHashRate ++ " TH/s vs " ++ jsStr baselineHashRate ++ " TH/s baseline)")
      {} st
  else if jsLt r (some st.thresholds.hashRateDrop) then
    createAlert AlertType.HASH_RATE_DROP Severity.HIGH
      ("⚠️ SIGNIFICANT HASH RATE DROP! " ++ jsStr r ++ " of baseline (" ++
        qStr currentHashRate ++ " TH/s vs " ++ jsStr baselineHashRate ++ " TH/s baseline)")
      {} st
  else st

/-- `checkDifficultySpikes`: HIGH alert above `difficultySpike`. -/
def checkDifficultySpikes (currentDifficulty : ℚ) (st : WState) : WState :=
  let baselineDifficulty := st.baselines.avgDifficulty
  let r := jsDiv (some currentDifficulty) baselineDifficulty
  if jsGt r (some st.thresholds.difficultySpike) then
    createAlert AlertType.DIFFICULTY_SPIKE Severity.HIGH
      ("⚠️ DIFFICULTY SPIKE DETECTED! " ++ jsStr r ++ "x increase (" ++
        qStr currentDifficulty ++ " vs " ++ jsStr baselineDifficulty ++ " baseline)")
      {} st
  else st

/-- The `deepReorgs` filter of `checkForDeepReorgs`: valid-fork tips of
branch length at least 6. -/
def deepForkTips (chainTips : List ChainTip) : List ChainTip :=
  chainTips.filter (fun tip => tip.status == "valid-fork" && decide (tip.branchlen ≥ 6))

/-- The `recentReorgs` filter of `checkForDeepReorgs`: valid-fork tips of
branch length at least 2. -/
def shallowForkTips (chainTips : List ChainTip) : List ChainTip :=
  chainTips.filter (fun tip => tip.status == "valid-fork" && decide (tip.branchlen ≥ 2))

/-- `Math.max(...deepReorgs.map(tip => tip.branchlen))` over natural branch
lengths (the source only evaluates it on a non-empty filter result). -/
def maxDeepForkDepth (chainTips : List ChainTip) : Nat :=
  ((deepForkTips chainTips).map (fun tip => tip.branchlen)).foldl Nat.max 0

/-- `checkForDeepReorgs`: one CRITICAL alert (fork depth = maximal branch
length) when some valid-fork tip has branch length ≥ 6, then one HIGH alert
when at least 3 valid-fork tips have branch length ≥ 2. -/
def checkForDeepReorgs (chainTips : List ChainTip) (st : WState) : WState :=
  let deepReorgs := deepForkTips chainTips
  let st1 :=
    if deepReorgs.length > 0 then
      let maxDepth := maxDeepForkDepth chainTips
      createAlert AlertType.DEEP_REORGANIZATION Severity.CRITICAL
        ("🚨 DEEP CHAIN REORGANIZATION DETECTED! Fork depth: " ++ toString maxDepth ++
          " blocks. This is a PRIMARY INDICATOR of a 51% attack in progress!")
        { forkDepth := some maxDepth } st
    else st
  let recentReorgs := shallowForkTips chainTips
  if recentReorgs.length ≥ 3 then
    createAlert AlertType.FREQUENT_REORGANIZATIONS Severity.HIGH
      ("⚠️ FREQUENT CHAIN REORGANIZATIONS! " ++ toString recentReorgs.length ++
        " competing forks detected. Possible coordinated attack preparation.")
      {} st1
  else st1

/-- The hash-rate history after the surge check pushes the current network
hash-rate sample and trims the buffer to its last 20 entries. -/
def hashHistAfter (currentData : CurrentData) (st : WState) : List MetricPoint :=
  let pushed := st.metrics.hashRate ++
    [{ hashrate := some currentData.network.networkhashps,
       difficulty := some currentData.blockchain.difficulty }]
  if pushed.length > 20 then sliceLast 20 pushed else pushed

/-- `checkHashrateAnomalies` (the short-window surge detector): push the
sample, keep the last 20, then with ≥ 5 samples compare the average of the
last 3 against 3× the average of all earlier entries. -/
def checkHashrateAnomalies (currentData : CurrentData) (st : WState) : WState :=
  let hist := hashHistAfter currentData st
  let st1 := { st with metrics := { st.metrics with hashRate := hist } }
  if hist.length ≥ 5 then
    let recent := sliceLast 3 hist
    let base := hist.take (hist.length - 3)
    let recentAvg := calculateAverage (recent.map (fun h => h.hashrate))
    let baselineAvg := calculateAverage (base.map (fun h => h.hashrate))
    if jsGt recentAvg (jsMul baselineAvg (some 3)) then
      createAlert AlertType.HASHRATE_SURGE Severity.CRITICAL
        ("🚨 MASSIVE HASHRATE SURGE! Network hashrate increased " ++
          jsStr (jsDiv recentAvg baselineAvg) ++ "x suddenly. Possible external ASIC attack!")
        {} st1
    else st1
  else st1

/-- `getRecentBlocks`: walk back at most `min count 10` steps, stopping at
the first failed `getblockhash`/`getblock` pair. -/
def getRecentBlocks : Nat → List (Option Block) → List Block
  | 0, _ => []
  | _ + 1, [] => []
  | _ + 1, none :: _ => []
  | n + 1, some b :: rest => b :: getRecentBlocks n rest

/-- `checkBlockTimingAnomalies`: long-gap-then-burst (CRITICAL) or sustained
fast blocks (HIGH), over the positive inter-block intervals of the last
(at most 10 fetched) blocks. -/
def checkBlockTimingAnomalies (env : TickEnv) (st : WState) : WState :=
  let recentBlocks := getRecentBlocks (Nat.min 20 10) env.blockFetch
  if recentBlocks.length < 10 then st
  else
    let blockTimes : List Int := (recentBlocks.zip recentBlocks.tail).filterMap
      (fun p => if p.1.time - p.2.time > 0 then some (p.1.time - p.2.time) else none)
    if blockTimes.length = 0 then st
    else
      let avgBlockTime := calculateAverage (blockTimes.map (fun (t : Int) => some ((t : ℚ))))
      let maxGap := blockTimes.foldl max 0
      let recentFast := blockTimes.take 5
      let avgRecentFast := calculateAverage (recentFast.map (fun (t : Int) => some ((t : ℚ))))
      if maxGap > 1200 && jsLt avgRecentFast (some 30) then
        createAlert AlertType.SUSPICIOUS_BLOCK_PATTERN Severity.CRITICAL
          ("🚨 ATTACK PATTERN DETECTED! Long block gap followed by rapid burst. " ++
            "Classic 51% attack signature!")
          {} st
      else if jsLt avgBlockTime (some 30) then
        createAlert AlertType.RAPID_BLOCK_GENERATION Severity.HIGH
          ("⚠️ RAPID BLOCK GENERATION! Recent blocks: " ++ jsStr avgBlockTime ++
            "s avg (target: ~60s). Possible hashrate advantage attack.")
          {} st
      else st

/-- `checkMempoolVolatility`: push the mempool sample (when the fetch
succeeded), keep the last 10, then with ≥ 5 samples compare the average of
the last 2 against 5× the average of all earlier entries. -/
def checkMempoolVolatility (env : TickEnv) (st : WState) : WState :=
  match env.mempoolFetch with
  | none => st
  | some mempoolInfo =>
    let pushed := st.metrics.mempool ++
      [{ size := some (mempoolInfo.size : ℚ), bytes := some (mempoolInfo.bytes : ℚ) }]
    let hist := if pushed.length > 10 then sliceLast 10 pushed else pushed
    let st1 := { st with metrics := { st.metrics with mempool := hist } }
    if hist.length ≥ 5 then
      let recent := sliceLast 2 hist
      let base := hist.take (hist.length - 2)
      let recentAvg := calculateAverage (recent.map (fun m => m.size))
      let baselineAvg := calculateAverage (base.map (fun m => m.size))
      if jsGt recentAvg (jsMul baselineAvg (some 5)) && jsGt baselineAvg (some 10) then
        createAlert AlertType.MEMPOOL_VOLATILITY Severity.HIGH
          ("⚠️ MEMPOOL SURGE! Transaction pool increased " ++
            jsStr (jsDiv recentAvg baselineAvg) ++ "x suddenly.")
          {} st1
      else st1
    else st1

/-- `check51PercentAttack`: skipped during initial block download and while
`avgBlockTime` is falsy or non-positive; otherwise run the deep-reorg,
hashrate-surge, block-timing and mempool-volatility checks in order. -/
def check51PercentAttack (currentData : CurrentData) (env : TickEnv)
    (st : WState) : WState :=
  if currentData.blockchain.initialblockdownload then st
  else
    match st.baselines.avgBlockTime with
    | none => st
    | some v =>
      if v ≤ 0 then st
      else
        let st1 := checkForDeepReorgs env.chainTips st
        let st2 := checkHashrateAnomalies currentData st1
        let st3 := checkBlockTimingAnomalies env st2
        checkMempoolVolatility env st3

/-- The {value, timestamp} point `updateMetrics` pushes onto `hashRate`. -/
def hashRatePoint (currentData : CurrentData) : MetricPoint :=
  { value := some (calculateHashRate currentData.blockchain.difficulty),
    tsIso := some currentData.timestamp }

/-- The {value, timestamp} point `updateMetrics` pushes onto `difficulty`. -/
def difficultyPoint (currentData : CurrentData) : MetricPoint :=
  { value := some currentData.blockchain.difficulty,
    tsIso := some currentData.timestamp }

/-- The {value, timestamp} point `updateMetrics` pushes onto `mempool`. -/
def mempoolPoint (currentData : CurrentData) : MetricPoint :=
  { value := some (currentData.mempool.size : ℚ),
    tsIso := some currentData.timestamp }

/-- The {value, timestamp} point `updateMetrics` pushes onto `networkNodes`. -/
def networkNodesPoint (currentData : CurrentData) : MetricPoint :=
  { value := some (currentData.peers.length : ℚ),
    tsIso := some currentData.timestamp }

/-- `updateMetrics`: push one derived point onto each of the four series and
`slice(-100)` each down to its last 100 entries. -/
def updateMetrics (currentData : CurrentData) (st : WState) : WState :=
  { st with metrics :=
    { st.metrics with
        hashRate := sliceLast 100 (st.metrics.hashRate ++ [hashRatePoint currentData]),
        difficulty := sliceLast 100 (st.metrics.difficulty ++ [difficultyPoint currentData]),
        mempool := sliceLast 100 (st.metrics.mempool ++ [mempoolPoint currentData]),
        networkNodes := sliceLast 100 (st.metrics.networkNodes ++ [networkNodesPoint currentData]) } }

/-- `analyzeSecurityThreats`: static checks, then the ratio checks guarded by
baseline truthiness, then the 51%-attack battery. -/
def analyzeSecurityThreats (currentData : CurrentData) (env : TickEnv)
    (st : WState) : WState :=
  let st1 := checkLowNodeCount currentData.peers.length st
  let st2 := checkMempoolFlooding currentData.mempool.size st1
  let st3 := if jsTruthy st2.baselines.avgHashRate then
      checkHashRateAnomalies currentData.blockchain.difficulty st2
    else st2
  let st4 := if jsTruthy st3.baselines.avgDifficulty then
      checkDifficultySpikes currentData.blockchain.difficulty st3
    else st3
  check51PercentAttack currentData env st4

/-- The alert payload of the per-tick SYSTEM_ERROR catch handler: method and
code when the error is a typed `RPCError`, empty otherwise. -/
def systemErrorData : JsError → AlertData
  | JsError.rpc e => { method := some e.method, code := some e.code }
  | JsError.generic _ => {}

/-- `performSecurityChecks`, one tick: no-op when not monitoring; on a failed
batch fetch, one CRITICAL SYSTEM_ERROR alert and nothing else; on success,
update metrics and run the detector battery. -/
def performSecurityChecks (fetchResult : Except JsError CurrentData)
    (env : TickEnv) (st : WState) : WState :=
  if !st.isMonitoring then st
  else
    match fetchResult with
    | Except.ok currentData =>
      let st1 := updateMetrics currentData st
      analyzeSecurityThreats currentData env st1
    | Except.error e =>
      createAlert AlertType.SYSTEM_ERROR Severity.CRITICAL
        ("Watchdog system error: " ++ e.message) (systemErrorData e) st

/-- `getRecentBlockTimes`: walk back at most `min count 10` steps; each step
fetches the two adjacent blocks and records the difference of their `time`
fields; the walk stops at the first failed step.  The input gives, per step,
the pair of block times when all four RPC calls of the step succeed. -/
def getRecentBlockTimes : Nat → List (Option (Int × Int)) → List Int
  | 0, _ => []
  | _ + 1, [] => []
  | _ + 1, none :: _ => []
  | n + 1, some p :: rest => (p.1 - p.2) :: getRecentBlockTimes n rest

/-- `calculateBaselines`: on any failure (node never ready, or the info
fetch threw) keep the old baselines; on success replace the whole structure,
with `avgBlockTime` the average of the sampled inter-block intervals. -/
def calculateBaselines (fetchResult : Except JsError NodeInfo)
    (blockTimeFetch : List (Option (Int × Int))) (now : String)
    (st : WState) : WState :=
  match fetchResult with
  | Except.error _ => st
  | Except.ok nodeInfo =>
    let hashRate := calculateHashRate nodeInfo.blockchain.difficulty
    let blockTimes := getRecentBlockTimes (Nat.min 100 10) blockTimeFetch
    { st with baselines :=
      { avgHashRate := some hashRate,
        avgBlockTime := calculateAverage (blockTimes.map (fun (t : Int) => some ((t : ℚ)))),
        avgDifficulty := some nodeInfo.blockchain.difficulty,
        avgMempoolSize := some (nodeInfo.mempool.size : ℚ),
        lastCalculated := some now } }

/-- `getOverallStatus`: OFFLINE unless monitoring, else the highest severity
among the unacknowledged alerts of the 10 most recent. -/
def getOverallStatus (st : WState) : Status :=
  if !st.isMonitoring then Status.OFFLINE
  else
    let recentAlerts := st.alerts.take 10
    let criticalAlerts := recentAlerts.filter
      (fun a => a.severity == Severity.CRITICAL && !a.acknowledged)
    if criticalAlerts.length > 0 then Status.CRITICAL_ALERT
    else
      let highAlerts := recentAlerts.filter
        (fun a => a.severity == Severity.HIGH && !a.acknowledged)
      if highAlerts.length > 0 then Status.HIGH_ALERT
      else
        let mediumAlerts := recentAlerts.filter
          (fun a => a.severity == Severity.MEDIUM && !a.acknowledged)
        if mediumAlerts.length > 0 then Status.MEDIUM_ALERT
        else Status.SECURE

/-- The in-place mutation `alert.acknowledged = true` performed on the first
ledger entry whose id matches (`Array.prototype.find` returns the first
match); entries before and after it are untouched. -/
def ackList (alertId : String) : List Alert → List Alert
  | [] => []
  | a :: rest =>
    if a.id = alertId then { a with acknowledged := true } :: rest
    else a :: ackList alertId rest

/-- `acknowledgeAlert`: linear lookup by id; sets the flag and returns true
when found, returns false and changes nothing otherwise. -/
def acknowledgeAlert (alertId : String) (st : WState) : Bool × WState :=
  if st.alerts.any (fun a => a.id == alertId) then
    (true, { st with alerts := ackList alertId st.alerts })
  else (false, st)

/-- `waitForNodeReady`, attempt loop: try the liveness call; on failure at
the final attempt throw the generic not-ready error, otherwise delay and
retry.  `remaining` counts the attempts still allowed after the current one
(the caller passes `maxRetries - 1`, so `remaining = 0` is exactly the JS
`attempt === maxRetries` test); the second component is the index of the
attempt the call returned on. -/
def waitAux (outcomes : Nat → Except JsError Unit) (maxRetries : Nat) :
    Nat → Nat → Except JsError Unit × Nat
  | attempt, remaining =>
    match outcomes attempt with
    | Except.ok _ => (Except.ok (), attempt)
    | Except.error _ =>
      match remaining with
      | 0 => (Except.error (JsError.generic
          ("Dogecoin node not ready after " ++ toString maxRetries ++ " attempts")), attempt)
      | r + 1 => waitAux outcomes maxRetries (attempt + 1) r

/-- `waitForNodeReady` entry point: attempts numbered from 1. -/
def waitForNodeReady (outcomes : Nat → Except JsError Unit)
    (maxRetries : Nat) : Except JsError Unit × Nat :=
  waitAux outcomes maxRetries 1 (maxRetries - 1)

/-- `callWithRetry`, attempt loop: rethrow at the final attempt; otherwise
propagate 401 authentication errors immediately ("Don't retry authentication
errors") and retry everything else.  Attempt accounting as in `waitAux`. -/
def retryAux (outcomes : Nat → Except JsError α) (maxRetries : Nat) :
    Nat → Nat → Except JsError α × Nat
  | attempt, remaining =>
    match outcomes attempt with
    | Except.ok v => (Except.ok v, attempt)
    | Except.error e =>
      match remaining with
      | 0 => (Except.error e, attempt)
      | r + 1 =>
        if errCode e = some 401 then (Except.error e, attempt)
        else retryAux outcomes maxRetries (attempt + 1) r

/-- `callWithRetry` entry point: attempts numbered from 1. -/
def callWithRetry (outcomes : Nat → Except JsError α)
    (maxRetries : Nat) : Except JsError α × Nat :=
  retryAux outcomes maxRetries 1 (maxRetries - 1)

/-- A requested alert creation: the four arguments of one `createAlert` call. -/
structure AlertDraft where
  type : AlertType
  severity : Severity
  message : String
  data : AlertData
deriving DecidableEq, Repr

/-- Run a sequence of alert creations against the ledger. -/
def runCreates (ds : List AlertDraft) (st : WState) : WState :=
  ds.foldl (fun s d => createAlert d.type d.severity d.message d.data s) st

/-- The alert values a sequence of creations builds, in creation order,
given the stream of (id, timestamp) pairs they consume. -/
def createdAlerts : List AlertDraft → List (String × String) → List Alert
  | [], _ => []
  | d :: ds, fr =>
    mkAlert d.type d.severity d.message d.data (fr.headD ("alert", "")) ::
      createdAlerts ds fr.tail

/-- Some unacknowledged alert of the given severity is present. -/
def hasUnack (sev : Severity) (l : List Alert) : Prop :=
  ∃ a ∈ l, a.severity = sev ∧ a.acknowledged = false

/-- The surge condition of claim C7, in plain arithmetic over the post-push
buffer: at least 5 samples, and the average of the last 3 samples exceeds
3 times the average of all earlier samples. -/
def surgeCondition (hist : List MetricPoint) : Prop :=
  5 ≤ hist.length ∧
    3 * avgQ ((hist.take (hist.length - 3)).filterMap (fun h => h.hashrate)) <
      avgQ ((sliceLast 3 hist).filterMap (fun h => h.hashrate))

/-- Run a sequence of successful ticks, recording metrics each tick. -/
def runTicksMetrics (ds : List CurrentData) (st : WState) : WState :=
  ds.foldl (fun s d => updateMetrics d s) st

/-! Concrete sample data used by witnesses and counterexamples. -/

/-- A sample alert draft. -/
def draftSample : AlertDraft :=
  { type := AlertType.SYSTEM_ERROR, severity := Severity.CRITICAL,
    message := "m", data := {} }

/-- 1001 alert creations, exceeding the ledger capacity of 1000. -/
def manyDrafts : List AlertDraft := List.replicate 1001 draftSample

/-- A running watchdog with two fresh id pairs available. -/
def runningState : WState :=
  { mkWatchdog [("id1", "t1"), ("id2", "t2")] with isMonitoring := true }

/-- A tick environment with no auxiliary data. -/
def envSample : TickEnv := { chainTips := [], blockFetch := [], mempoolFetch := none }

/-- A typed RPC failure of the batch fetch. -/
def errSample : JsError :=
  JsError.rpc { message := "Connection refused - Dogecoin node may not be running",
                code := -1, method := "getblockchaininfo" }

/-- An unacknowledged MEDIUM alert with id a1. -/
def alertW : Alert :=
  { id := "a1", type := AlertType.LOW_NODE_COUNT, severity := Severity.MEDIUM,
    message := "m", data := {}, timestamp := "t", acknowledged := false }

/-- A watchdog holding exactly the alert a1. -/
def ackSample : WState := { mkWatchdog [] with alerts := [alertW] }

/-- A watchdog with baseline average hash rate 10 TH/s. -/
def spikeState : WState :=
  { mkWatchdog [("id1", "t1")] with
      baselines := { initBaselines with avgHashRate := some 10 } }

/-- A difficulty whose derived hash rate is exactly 60 TH/s. -/
def dSpike : ℚ := 60 * 60 * 10 ^ 12 / 2 ^ 32

/-- A difficulty whose derived hash rate is exactly 40 TH/s (ratio 4 against
the 10 TH/s baseline). -/
def dNoSpike : ℚ := 40 * 60 * 10 ^ 12 / 2 ^ 32

/-- A single valid-fork chain tip of branch length 7. -/
def tips7 : List ChainTip := [{ status := "valid-fork", branchlen := 7 }]

/-- A single valid-fork chain tip of branch length 5. -/
def tips5 : List ChainTip := [{ status := "valid-fork", branchlen := 5 }]

/-- A pure hash-rate sample point. -/
def surgePoint (x : ℚ) : MetricPoint := { hashrate := some x }

/-- A watchdog whose hash-rate buffer holds four 10-unit samples. -/
def surgeState : WState :=
  { mkWatchdog [("id1", "t1")] with
      metrics := { initMetrics with
        hashRate := [surgePoint 10, surgePoint 10, surgePoint 10, surgePoint 10] } }

/-- A snapshot reporting a 100-unit network hash rate. -/
def surgeData : CurrentData :=
  { blockchain := { blocks := 0, difficulty := 1, initialblockdownload := false },
    network := { networkhashps := 100 },
    mempool := { size := 0, bytes := 0 }, peers := [], timestamp := "t" }

/-- A node-info snapshot for baseline computation. -/
def niC8 : NodeInfo :=
  { blockchain := { blocks := 500, difficulty := 1000, initialblockdownload := false },
    mempool := { size := 5, bytes := 100 } }

/-- A 401 authentication failure, as the RPC layer types it. -/
def authErrInfo : RPCErrorInfo :=
  { message := "Authentication failed - check RPC credentials", code := 401,
    method := "getblockchaininfo" }

/-- An outcome stream in which every attempt fails with the 401 error. -/
def out401 : Nat → Except JsError Unit :=
  fun _ => Except.error (JsError.rpc authErrInfo)

/-! General helper lemmas about the list operations of the embedding. -/

theorem take_append_take (n : Nat) (a b : List α) :
    (a ++ b.take n).take n = (a ++ b).take n := by
  rw [List.take_append_eq_append_take, List.take_append_eq_append_take, List.take_take]
  congr 1
  congr 1
  omega

theorem reverse_sliceLast (n : Nat) (l : List α) :
    (sliceLast n l).reverse = l.reverse.take n := by
  rw [sliceLast, List.reverse_drop]
  rw [List.take_eq_take]
  simp
  omega

theorem sliceLast_length (n : Nat) (l : List α) :
    (sliceLast n l).length = l.length - (l.length - n) := by
  simp [sliceLast]

theorem sliceLast_append_absorb (n : Nat) (l m : List α) :
    sliceLast n (sliceLast n l ++ m) = sliceLast n (l ++ m) := by
  apply List.reverse_injective
  rw [reverse_sliceLast, reverse_sliceLast, List.reverse_append, List.reverse_append,
    reverse_sliceLast, take_append_take]

theorem sliceLast_append_right (n : Nat) (l m : List α) (h : n ≤ m.length) :
    sliceLast n (l ++ m) = sliceLast n m := by
  apply List.reverse_injective
  rw [reverse_sliceLast, reverse_sliceLast, List.reverse_append,
    List.take_append_of_le_length]
  simpa using h

theorem createdAlerts_length (ds : List AlertDraft) (fr : List (String × String)) :
    (createdAlerts ds fr).length = ds.length := by
  induction ds generalizing fr with
  | nil => rfl
  | cons d ds ih => simp [createdAlerts, ih]

theorem runCreates_alerts (ds : List AlertDraft) (st : WState)
    (hlen : st.alerts.length ≤ 1000) :
    (runCreates ds st).alerts =
      ((createdAlerts ds st.fresh).reverse ++ st.alerts).take 1000 := by
  induction ds generalizing st with
  | nil =>
    simp [runCreates, createdAlerts, List.take_of_length_le hlen]
  | cons d ds ih =>
    rw [runCreates, List.foldl_cons]
    have h1 : (createAlert d.type d.severity d.message d.data st).alerts.length ≤ 1000 := by
      simp [createAlert]
    have h2 := ih (createAlert d.type d.severity d.message d.data st) h1
    rw [runCreates] at h2
    rw [h2, createdAlerts]
    show ((createdAlerts ds st.fresh.tail).reverse ++
        (mkAlert d.type d.severity d.message d.data (st.fresh.headD ("alert", "")) ::
          st.alerts).take 1000).take 1000 = _
    rw [take_append_take]
    simp [List.append_assoc]

/-- C1: every alert creation inserts the new alert at the head of the ledger
and truncates it to capacity 1000; along any sequence of creations starting
from a within-capacity ledger the result is the most-recent-first prefix of
length ≤ 1000 of all created and pre-existing alerts; after more than 1000
creations the ledger holds exactly the 1000 most recently created alerts,
most-recent-first. -/
theorem C1_alert_ledger (ds : List AlertDraft) (st : WState)
    (hlen : st.alerts.length ≤ 1000) :
    (∀ (d : AlertDraft) (s : WState),
      (createAlert d.type d.severity d.message d.data s).alerts =
        (mkAlert d.type d.severity d.message d.data (s.fresh.headD ("alert", "")) ::
          s.alerts).take 1000) ∧
    (runCreates ds st).alerts =
      ((createdAlerts ds st.fresh).reverse ++ st.alerts).take 1000 ∧
    (1000 < ds.length →
      (runCreates ds st).alerts = (createdAlerts ds st.fresh).reverse.take 1000 ∧
      (runCreates ds st).alerts.length = 1000) := by
  refine ⟨fun d s => rfl, runCreates_alerts ds st hlen, fun hmany => ?_⟩
  have hlen2 : 1000 ≤ (createdAlerts ds st.fresh).length := by
    rw [createdAlerts_length]
    omega
  constructor
  · rw [runCreates_alerts ds st hlen, List.take_append_of_le_length (by simpa using hlen2)]
  · rw [runCreates_alerts ds st hlen, List.length_take]
    simp only [List.length_append, List.length_reverse]
    omega

/-- C1 witness: 1001 creations against a fresh watchdog leave exactly 1000
alerts in the ledger. -/
theorem C1_alert_ledger_witness :
    (runCreates manyDrafts (mkWatchdog [])).alerts.length = 1000 := by
  have h := C1_alert_ledger manyDrafts (mkWatchdog []) (by decide)
  exact (h.2.2 (by rw [manyDrafts, List.length_replicate]; omega)).2

theorem unack_filter_pos (sev : Severity) (l : List Alert) :
    0 < (l.filter (fun a => a.severity == sev && !a.acknowledged)).length ↔
      hasUnack sev l := by
  rw [List.length_pos_iff_exists_mem]
  unfold hasUnack
  constructor
  · rintro ⟨a, ha⟩
    rw [List.mem_filter] at ha
    have hp := ha.2
    simp only [Bool.and_eq_true, beq_iff_eq, Bool.not_eq_true'] at hp
    exact ⟨a, ha.1, hp.1, hp.2⟩
  · rintro ⟨a, hal, hsev, hack⟩
    exact ⟨a, List.mem_filter.mpr ⟨hal, by simp [hsev, hack]⟩⟩

/-- C2: `getOverallStatus` returns OFFLINE whenever monitoring is off;
otherwise it reports the highest unacknowledged severity among the 10 most
recent alerts (CRITICAL over HIGH over MEDIUM), and SECURE whenever the 10
most recent alerts are all acknowledged or the ledger is empty. -/
theorem C2_overall_status (st : WState) :
    (st.isMonitoring = false → getOverallStatus st = Status.OFFLINE) ∧
    (st.isMonitoring = true →
      ((getOverallStatus st = Status.CRITICAL_ALERT ↔
          hasUnack Severity.CRITICAL (st.alerts.take 10)) ∧
       (getOverallStatus st = Status.HIGH_ALERT ↔
          (¬ hasUnack Severity.CRITICAL (st.alerts.take 10) ∧
            hasUnack Severity.HIGH (st.alerts.take 10))) ∧
       (getOverallStatus st = Status.MEDIUM_ALERT ↔
          (¬ hasUnack Severity.CRITICAL (st.alerts.take 10) ∧
            ¬ hasUnack Severity.HIGH (st.alerts.take 10) ∧
            hasUnack Severity.MEDIUM (st.alerts.take 10))) ∧
       ((∀ a ∈ st.alerts.take 10, a.acknowledged = true) →
          getOverallStatus st = Status.SECURE) ∧
       (st.alerts = [] → getOverallStatus st = Status.SECURE))) := by
  constructor
  · intro hmon
    simp [getOverallStatus, hmon]
  · intro hmon
    have hc := unack_filter_pos Severity.CRITICAL (st.alerts.take 10)
    have hh := unack_filter_pos Severity.HIGH (st.alerts.take 10)
    have hm := unack_filter_pos Severity.MEDIUM (st.alerts.take 10)
    have hnoack : ∀ sev, (∀ a ∈ st.alerts.take 10, a.acknowledged = true) →
        ¬ hasUnack sev (st.alerts.take 10) := by
      rintro sev hall ⟨a, hal, _, hack⟩
      rw [hall a hal] at hack
      cases hack
    unfold getOverallStatus
    rw [hmon]
    simp only [Bool.not_true, Bool.false_eq_true, if_false, gt_iff_lt]
    split_ifs with h1 h2 h3
    · rw [hc] at h1
      refine ⟨by simp [h1], by simp [h1], by simp [h1], ?_, ?_⟩
      · intro hall
        exact absurd h1 (hnoack _ hall)
      · intro hnil
        rw [hnil] at h1
        rcases h1 with ⟨a, ha, _⟩
        simp at ha
    · rw [hc] at h1
      rw [hh] at h2
      refine ⟨by simp [h1], by simp [h1, h2], by simp [h2], ?_, ?_⟩
      · intro hall
        exact absurd h2 (hnoack _ hall)
      · intro hnil
        rw [hnil] at h2
        rcases h2 with ⟨a, ha, _⟩
        simp at ha
    · rw [hc] at h1
      rw [hh] at h2
      rw [hm] at h3
      refine ⟨by simp [h1], by simp [h2], by simp [h1, h2, h3], ?_, ?_⟩
      · intro hall
        exact absurd h3 (hnoack _ hall)
      · intro hnil
        rw [hnil] at h3
        rcases h3 with ⟨a, ha, _⟩
        simp at ha
    · rw [hc] at h1
      rw [hh] at h2
      rw [hm] at h3
      refine ⟨by simp [h1], by simp [h2], by simp [h3], fun _ => rfl, fun _ => rfl⟩

/-- C2 witness: a freshly constructed watchdog is not monitoring, so its
overall status is OFFLINE; a running watchdog with one unacknowledged MEDIUM
alert reports MEDIUM_ALERT. -/
theorem C2_overall_status_witness :
    getOverallStatus (mkWatchdog []) = Status.OFFLINE ∧
    getOverallStatus { ackSample with isMonitoring := true } = Status.MEDIUM_ALERT := by
  constructor
  · exact (C2_overall_status (mkWatchdog [])).1 rfl
  · refine (((C2_overall_status { ackSample with isMonitoring := true }).2 rfl).2.2.1).mpr ?_
    refine ⟨?_, ?_, ⟨alertW, by decide, by decide, by decide⟩⟩
    · simp only [hasUnack]
      decide
    · simp only [hasUnack]
      decide

/-- C3: while monitoring, a tick whose batch fetch fails appends exactly one
CRITICAL SYSTEM_ERROR alert carrying the error message (with method and code
when the failure is a typed RPC error), records no metrics, leaves baselines
and the running flag untouched; a tick whose fetch succeeds records metrics
and runs the detector battery. -/
theorem C3_tick_error (st : WState) (env : TickEnv) (e : JsError)
    (hmon : st.isMonitoring = true) :
    (performSecurityChecks (Except.error e) env st).alerts =
        mkAlert AlertType.SYSTEM_ERROR Severity.CRITICAL
          ("Watchdog system error: " ++ e.message) (systemErrorData e)
          (st.fresh.headD ("alert", "")) :: st.alerts.take 999 ∧
    (performSecurityChecks (Except.error e) env st).metrics = st.metrics ∧
    (performSecurityChecks (Except.error e) env st).baselines = st.baselines ∧
    (performSecurityChecks (Except.error e) env st).isMonitoring = true ∧
    (∀ err, e = JsError.rpc err →
      (systemErrorData e).code = some err.code ∧
        (systemErrorData e).method = some err.method) ∧
    (∀ d, performSecurityChecks (Except.ok d) env st =
        analyzeSecurityThreats d env (updateMetrics d st)) := by
  refine ⟨?_, ?_, ?_, ?_, ?_, ?_⟩
  · simp [performSecurityChecks, hmon, createAlert, List.take_succ_cons]
  · simp [performSecurityChecks, hmon, createAlert]
  · simp [performSecurityChecks, hmon, createAlert]
  · simp [performSecurityChecks, hmon, createAlert]
  · rintro err rfl
    exact ⟨rfl, rfl⟩
  · intro d
    simp [performSecurityChecks, hmon]

/-- C3 witness: a failed tick against a concrete running watchdog appends
the SYSTEM_ERROR alert and leaves metrics and the running flag unchanged. -/
theorem C3_tick_error_witness :
    (performSecurityChecks (Except.error errSample) envSample runningState).metrics =
        runningState.metrics ∧
    (performSecurityChecks (Except.error errSample) envSample runningState).isMonitoring =
        true := by
  have h := C3_tick_error runningState envSample errSample rfl
  exact ⟨h.2.1, h.2.2.2.1⟩

theorem ackList_of_not_found (alertId : String) (l : List Alert)
    (h : ∀ a ∈ l, a.id ≠ alertId) : ackList alertId l = l := by
  induction l with
  | nil => rfl
  | cons a l ih =>
    rw [ackList, if_neg (h a (List.mem_cons_self a l))]
    rw [ih (fun b hb => h b (List.mem_cons_of_mem a hb))]

theorem ackList_decomp (alertId : String) (l : List Alert)
    (h : ∃ a ∈ l, a.id = alertId) :
    ∃ pre a post, l = pre ++ a :: post ∧ a.id = alertId ∧
      (∀ b ∈ pre, b.id ≠ alertId) ∧
      ackList alertId l = pre ++ { a with acknowledged := true } :: post := by
  induction l with
  | nil => rcases h with ⟨a, ha, _⟩; cases ha
  | cons a l ih =>
    by_cases ha : a.id = alertId
    · exact ⟨[], a, l, rfl, ha, by simp, by rw [ackList, if_pos ha]; rfl⟩
    · have h2 : ∃ b ∈ l, b.id = alertId := by
        rcases h with ⟨b, hb, hid⟩
        rcases List.mem_cons.mp hb with rfl | hbl
        · exact absurd hid ha
        · exact ⟨b, hbl, hid⟩
      rcases ih h2 with ⟨pre, c, post, hsplit, hid, hpre, hack⟩
      refine ⟨a :: pre, c, post, by rw [hsplit]; rfl, hid, ?_, ?_⟩
      · intro b hb
        rcases List.mem_cons.mp hb with rfl | hbp
        · exact ha
        · exact hpre b hbp
      · rw [ackList, if_neg ha, hack]
        rfl

theorem ackList_any (alertId : String) (l : List Alert) :
    (ackList alertId l).any (fun a => a.id == alertId) =
      l.any (fun a => a.id == alertId) := by
  induction l with
  | nil => rfl
  | cons a l ih =>
    by_cases ha : a.id = alertId
    · rw [ackList, if_pos ha]
      simp [ha]
    · rw [ackList, if_neg ha]
      simp [ha, ih]

theorem ackList_idem (alertId : String) (l : List Alert) :
    ackList alertId (ackList alertId l) = ackList alertId l := by
  induction l with
  | nil => rfl
  | cons a l ih =>
    by_cases ha : a.id = alertId
    · rw [ackList, if_pos ha, ackList, if_pos ha]
    · rw [ackList, if_neg ha, ackList, if_neg ha, ih]

/-- C4: `acknowledgeAlert` returns true exactly when some ledger alert has
the given id; when found it flips the first such alert's acknowledged flag
to true and changes nothing else; repeating the call returns the same result
with no further change; on an unknown id it returns false and mutates
nothing. -/
theorem C4_acknowledge (st : WState) (alertId : String) :
    ((acknowledgeAlert alertId st).1 = true ↔ ∃ a ∈ st.alerts, a.id = alertId) ∧
    ((acknowledgeAlert alertId st).1 = false → (acknowledgeAlert alertId st).2 = st) ∧
    ((acknowledgeAlert alertId st).1 = true →
      ∃ pre a post, st.alerts = pre ++ a :: post ∧ a.id = alertId ∧
        (∀ b ∈ pre, b.id ≠ alertId) ∧
        (acknowledgeAlert alertId st).2.alerts =
          pre ++ { a with acknowledged := true } :: post ∧
        (acknowledgeAlert alertId st).2.metrics = st.metrics ∧
        (acknowledgeAlert alertId st).2.baselines = st.baselines ∧
        (acknowledgeAlert alertId st).2.isMonitoring = st.isMonitoring ∧
        (acknowledgeAlert alertId st).2.fresh = st.fresh) ∧
    acknowledgeAlert alertId (acknowledgeAlert alertId st).2 =
      ((acknowledgeAlert alertId st).1, (acknowledgeAlert alertId st).2) := by
  have hany : st.alerts.any (fun a => a.id == alertId) = true ↔
      ∃ a ∈ st.alerts, a.id = alertId := by
    rw [List.any_eq_true]
    simp only [beq_iff_eq]
  by_cases hfound : st.alerts.any (fun a => a.id == alertId) = true
  · have hex := hany.mp hfound
    rcases ackList_decomp alertId st.alerts hex with ⟨pre, a, post, hsplit, hid, hpre, hack⟩
    have hres : acknowledgeAlert alertId st =
        (true, { st with alerts := ackList alertId st.alerts }) := by
      rw [acknowledgeAlert, if_pos hfound]
    refine ⟨?_, ?_, ?_, ?_⟩
    · rw [hres]
      exact ⟨fun _ => hex, fun _ => rfl⟩
    · rw [hres]
      intro hcontra
      simp at hcontra
    · intro _
      rw [hres]
      exact ⟨pre, a, post, hsplit, hid, hpre, hack, rfl, rfl, rfl, rfl⟩
    · rw [hres]
      show acknowledgeAlert alertId { st with alerts := ackList alertId st.alerts } =
        (true, { st with alerts := ackList alertId st.alerts })
      have hc : (ackList alertId st.alerts).any (fun a => a.id == alertId) = true := by
        rw [ackList_any]
        exact hfound
      rw [acknowledgeAlert, if_pos hc, ackList_idem]
  · have hnotex := (not_iff_not.mpr hany).mp hfound
    have hres : acknowledgeAlert alertId st = (false, st) := by
      rw [acknowledgeAlert, if_neg hfound]
    refine ⟨?_, ?_, ?_, ?_⟩
    · rw [hres]
      constructor
      · intro hcontra
        simp at hcontra
      · intro hex
        exact absurd hex hnotex
    · intro _
      rw [hres]
    · rw [hres]
      intro hcontra
      simp at hcontra
    · rw [hres]
      exact hres

/-- C4 witness: acknowledging alert a1 in a concrete ledger returns true,
and acknowledging it a second time returns true again with no state change. -/
theorem C4_acknowledge_witness :
    (acknowledgeAlert "a1" ackSample).1 = true ∧
    acknowledgeAlert "a1" (acknowledgeAlert "a1" ackSample).2 =
      ((acknowledgeAlert "a1" ackSample).1, (acknowledgeAlert "a1" ackSample).2) := by
  have h := C4_acknowledge ackSample "a1"
  refine ⟨h.1.mpr ⟨alertW, by decide, rfl⟩, h.2.2.2⟩

/-- C5: with a baseline average hash rate present (and non-zero, which the
caller guard enforces), the long-window detector appends exactly one CRITICAL
HASH_RATE_SPIKE alert when the derived hash rate over the baseline strictly
exceeds the spike threshold, and appends no spike alert otherwise. -/
theorem C5_hash_rate_spike (st : WState) (d b : ℚ)
    (hb : st.baselines.avgHashRate = some b) (hb0 : b ≠ 0) :
    (st.thresholds.hashRateSpike < calculateHashRate d / b →
      ((checkHashRateAnomalies d st).alerts.head?.map
          (fun a => (a.type, a.severity, a.acknowledged)) =
        some (AlertType.HASH_RATE_SPIKE, Severity.CRITICAL, false)) ∧
      (checkHashRateAnomalies d st).alerts.tail = st.alerts.take 999) ∧
    (calculateHashRate d / b ≤ st.thresholds.hashRateSpike →
      ∀ a ∈ (checkHashRateAnomalies d st).alerts,
        a.type = AlertType.HASH_RATE_SPIKE → a ∈ st.alerts) := by
  have hdiv : jsDiv (some (calculateHashRate d)) st.baselines.avgHashRate =
      some (calculateHashRate d / b) := by
    rw [hb, jsDiv, if_neg hb0]
  constructor
  · intro hgt
    have hcond : jsGt (jsDiv (some (calculateHashRate d)) st.baselines.avgHashRate)
        (some st.thresholds.hashRateSpike) = true := by
      rw [hdiv]
      simp only [jsGt]
      exact decide_eq_true hgt
    constructor
    · simp only [checkHashRateAnomalies]
      rw [if_pos hcond]
      simp [createAlert, List.take_succ_cons, mkAlert]
    · simp only [checkHashRateAnomalies]
      rw [if_pos hcond]
      simp [createAlert, List.take_succ_cons]
  · intro hle a ha hty
    have hcond : jsGt (jsDiv (some (calculateHashRate d)) st.baselines.avgHashRate)
        (some st.thresholds.hashRateSpike) = false := by
      rw [hdiv]
      simp only [jsGt]
      simpa [not_lt] using hle
    simp only [checkHashRateAnomalies] at ha
    rw [hcond] at ha
    simp only [Bool.false_eq_true, if_false] at ha
    by_cases hdrop : jsLt (jsDiv (some (calculateHashRate d)) st.baselines.avgHashRate)
        (some st.thresholds.hashRateDrop) = true
    · rw [if_pos hdrop, createAlert] at ha
      simp only [List.take_succ_cons, List.mem_cons] at ha
      rcases ha with rfl | ha
      · cases hty
      · exact List.take_subset 999 st.alerts ha
    · rw [if_neg hdrop] at ha
      exact ha

/-- C5 witness: against a 10 TH/s baseline, a snapshot deriving 60 TH/s
(ratio 6 over threshold 5) appends exactly one CRITICAL spike alert, and a
snapshot deriving 40 TH/s (ratio 4) appends no spike alert. -/
theorem C5_hash_rate_spike_witness :
    ((checkHashRateAnomalies dSpike spikeState).alerts.head?.map
        (fun a => (a.type, a.severity, a.acknowledged)) =
      some (AlertType.HASH_RATE_SPIKE, Severity.CRITICAL, false)) ∧
    (checkHashRateAnomalies dSpike spikeState).alerts.tail =
      spikeState.alerts.take 999 ∧
    (∀ a ∈ (checkHashRateAnomalies dNoSpike spikeState).alerts,
      a.type = AlertType.HASH_RATE_SPIKE → a ∈ spikeState.alerts) := by
  have h6 := C5_hash_rate_spike spikeState dSpike 10 rfl (by norm_num)
  have h4 := C5_hash_rate_spike spikeState dNoSpike 10 rfl (by norm_num)
  have hgt : spikeState.thresholds.hashRateSpike < calculateHashRate dSpike / 10 := by
    show defaultThresholds.hashRateSpike < calculateHashRate dSpike / 10
    rw [calculateHashRate, dSpike, defaultThresholds]
    norm_num
  have hle : calculateHashRate dNoSpike / 10 ≤ spikeState.thresholds.hashRateSpike := by
    show calculateHashRate dNoSpike / 10 ≤ defaultThresholds.hashRateSpike
    rw [calculateHashRate, dNoSpike, defaultThresholds]
    norm_num
  exact ⟨(h6.1 hgt).1, (h6.1 hgt).2, h4.2 hle⟩

theorem foldl_max_bounds (l : List Nat) (a : Nat) :
    a ≤ l.foldl Nat.max a ∧ ∀ x ∈ l, x ≤ l.foldl Nat.max a := by
  induction l generalizing a with
  | nil => exact ⟨Nat.le_refl a, by simp⟩
  | cons x l ih =>
    rw [List.foldl_cons]
    rcases ih (Nat.max a x) with ⟨h1, h2⟩
    refine ⟨Nat.le_trans (Nat.le_max_left a x) h1, ?_⟩
    intro y hy
    rcases List.mem_cons.mp hy with rfl | hyl
    · exact Nat.le_trans (Nat.le_max_right a y) h1
    · exact h2 y hyl

theorem foldl_max_mem (l : List Nat) (a : Nat) :
    l.foldl Nat.max a = a ∨ l.foldl Nat.max a ∈ l := by
  induction l generalizing a with
  | nil => exact Or.inl rfl
  | cons x l ih =>
    rw [List.foldl_cons]
    rcases ih (Nat.max a x) with h | h
    · rcases Nat.le_total a x with hax | hxa
      · rw [show Nat.max a x = x from Nat.max_eq_right hax] at h ⊢
        exact Or.inr (by rw [h]; exact List.mem_cons_self x l)
      · rw [show Nat.max a x = a from Nat.max_eq_left hxa] at h ⊢
        exact Or.inl h
    · exact Or.inr (List.mem_cons_of_mem x h)

theorem deepForkTips_branchlen_ge (tips : List ChainTip) (t : ChainTip)
    (ht : t ∈ deepForkTips tips) : 6 ≤ t.branchlen := by
  rw [deepForkTips, List.mem_filter] at ht
  have h2 := ht.2
  simp only [Bool.and_eq_true, decide_eq_true_eq] at h2
  exact h2.2

/-- C6: the deep-reorg detector appends exactly one CRITICAL
DEEP_REORGANIZATION alert whose forkDepth is the maximal branch length among
valid-fork tips of branch length at least 6 whenever such a tip exists
(possibly preceded by one FREQUENT_REORGANIZATIONS alert of a different
type), and appends no deep-reorg alert when no such tip exists. -/
theorem C6_deep_reorg (tips : List ChainTip) (st : WState) :
    (deepForkTips tips ≠ [] →
      (((checkForDeepReorgs tips st).alerts.head?.map
            (fun a => (a.type, a.severity, a.data.forkDepth)) =
          some (AlertType.DEEP_REORGANIZATION, Severity.CRITICAL,
            some (maxDeepForkDepth tips)) ∧
        (checkForDeepReorgs tips st).alerts.tail = st.alerts.take 999) ∨
       ((checkForDeepReorgs tips st).alerts.head?.map (fun a => a.type) =
          some AlertType.FREQUENT_REORGANIZATIONS ∧
        (checkForDeepReorgs tips st).alerts.tail.head?.map
            (fun a => (a.type, a.severity, a.data.forkDepth)) =
          some (AlertType.DEEP_REORGANIZATION, Severity.CRITICAL,
            some (maxDeepForkDepth tips)) ∧
        (checkForDeepReorgs tips st).alerts.tail.tail = st.alerts.take 998))) ∧
    (deepForkTips tips = [] →
      ∀ a ∈ (checkForDeepReorgs tips st).alerts,
        a.type = AlertType.DEEP_REORGANIZATION → a ∈ st.alerts) ∧
    (deepForkTips tips ≠ [] →
      maxDeepForkDepth tips ∈ (deepForkTips tips).map (fun tip => tip.branchlen) ∧
      ∀ n ∈ (deepForkTips tips).map (fun tip => tip.branchlen),
        n ≤ maxDeepForkDepth tips) := by
  refine ⟨?_, ?_, ?_⟩
  · intro hne
    have hpos : (deepForkTips tips).length > 0 := List.length_pos.mpr hne
    simp only [checkForDeepReorgs]
    rw [if_pos hpos]
    by_cases hfreq : (shallowForkTips tips).length ≥ 3
    · refine Or.inr ?_
      rw [if_pos hfreq]
      refine ⟨rfl, ?_, ?_⟩
      · simp [createAlert, List.take_succ_cons, mkAlert]
      · simp [createAlert, List.take_succ_cons, List.take_take]
    · refine Or.inl ?_
      rw [if_neg hfreq]
      refine ⟨rfl, ?_⟩
      simp [createAlert, List.take_succ_cons]
  · intro hnil a ha hty
    rw [checkForDeepReorgs] at ha
    simp only [hnil, List.length_nil, gt_iff_lt, Nat.lt_irrefl, if_false] at ha
    by_cases hfreq : (shallowForkTips tips).length ≥ 3
    · rw [if_pos hfreq, createAlert] at ha
      simp only [List.take_succ_cons, List.mem_cons] at ha
      rcases ha with rfl | ha
      · cases hty
      · exact List.take_subset 999 st.alerts ha
    · rw [if_neg hfreq] at ha
      exact ha
  · intro hne
    have hM : maxDeepForkDepth tips =
        ((deepForkTips tips).map (fun tip => tip.branchlen)).foldl Nat.max 0 := rfl
    constructor
    · rw [hM]
      rcases foldl_max_mem ((deepForkTips tips).map (fun tip => tip.branchlen)) 0 with h | h
      · exfalso
        rcases List.exists_mem_of_ne_nil _ hne with ⟨t, ht⟩
        have h6 := deepForkTips_branchlen_ge tips t ht
        have hle := (foldl_max_bounds ((deepForkTips tips).map (fun tip => tip.branchlen)) 0).2
          t.branchlen (List.mem_map_of_mem _ ht)
        omega
      · exact h
    · rw [hM]
      exact (foldl_max_bounds _ 0).2

/-- C6 witness: a single valid-fork tip of branch length 7 yields one
CRITICAL deep-reorg alert with forkDepth 7; a branch length of 5 yields no
deep-reorg alert. -/
theorem C6_deep_reorg_witness :
    (((checkForDeepReorgs tips7 (mkWatchdog [])).alerts.head?.map
          (fun a => (a.type, a.severity, a.data.forkDepth)) =
        some (AlertType.DEEP_REORGANIZATION, Severity.CRITICAL,
          some (maxDeepForkDepth tips7)) ∧
      (checkForDeepReorgs tips7 (mkWatchdog [])).alerts.tail =
        (mkWatchdog []).alerts.take 999) ∨
     ((checkForDeepReorgs tips7 (mkWatchdog [])).alerts.head?.map (fun a => a.type) =
        some AlertType.FREQUENT_REORGANIZATIONS ∧
      (checkForDeepReorgs tips7 (mkWatchdog [])).alerts.tail.head?.map
          (fun a => (a.type, a.severity, a.data.forkDepth)) =
        some (AlertType.DEEP_REORGANIZATION, Severity.CRITICAL,
          some (maxDeepForkDepth tips7)) ∧
      (checkForDeepReorgs tips7 (mkWatchdog [])).alerts.tail.tail =
        (mkWatchdog []).alerts.take 998)) ∧
    maxDeepForkDepth tips7 = 7 ∧
    (∀ a ∈ (checkForDeepReorgs tips5 (mkWatchdog [])).alerts,
      a.type = AlertType.DEEP_REORGANIZATION → a ∈ (mkWatchdog []).alerts) := by
  refine ⟨(C6_deep_reorg tips7 (mkWatchdog [])).1 (by decide), by decide,
    (C6_deep_reorg tips5 (mkWatchdog [])).2.1 (by decide)⟩

theorem foldl_jsAdd_map_some (l : List ℚ) (a : ℚ) :
    (l.map some).foldl jsAdd (some a) = some (l.foldl (fun s v => s + v) a) := by
  induction l generalizing a with
  | nil => rfl
  | cons x l ih =>
    rw [List.map_cons, List.foldl_cons, List.foldl_cons]
    exact ih (a + x)

theorem foldl_add_eq_sum (l : List ℚ) (a : ℚ) :
    l.foldl (fun s v => s + v) a = a + l.sum := by
  induction l generalizing a with
  | nil => simp
  | cons x l ih =>
    rw [List.foldl_cons, List.sum_cons, ih]
    ring

theorem calculateAverage_map_some (l : List ℚ) :
    calculateAverage (l.map some) = some (avgQ l) := by
  rcases l with _ | ⟨x, l⟩
  · simp [calculateAverage, avgQ]
  · rw [calculateAverage, if_neg (by simp), foldl_jsAdd_map_some, jsDiv,
      if_neg (by
        simp only [List.length_map, List.length_cons]
        exact_mod_cast Nat.succ_ne_zero l.length)]
    rw [foldl_add_eq_sum, avgQ]
    simp

theorem map_eq_filterMap_of_isSome (f : MetricPoint → Option ℚ)
    (l : List MetricPoint) (h : ∀ x ∈ l, (f x).isSome = true) :
    l.map f = (l.filterMap f).map some := by
  induction l with
  | nil => rfl
  | cons x l ih =>
    have hx := h x (List.mem_cons_self x l)
    rcases Option.isSome_iff_exists.mp hx with ⟨y, hy⟩
    rw [List.map_cons, List.filterMap_cons, hy, List.map_cons]
    rw [ih (fun b hb => h b (List.mem_cons_of_mem x hb))]

theorem hashHistAfter_isSome (currentData : CurrentData) (st : WState)
    (hs : ∀ p ∈ st.metrics.hashRate, (p.hashrate).isSome = true) :
    ∀ p ∈ hashHistAfter currentData st, (p.hashrate).isSome = true := by
  intro p hp
  rw [hashHistAfter] at hp
  have hmem : p ∈ st.metrics.hashRate ++
      [({ hashrate := some currentData.network.networkhashps,
          difficulty := some currentData.blockchain.difficulty } : MetricPoint)] := by
    by_cases hlen : (st.metrics.hashRate ++
        [({ hashrate := some currentData.network.networkhashps,
            difficulty := some currentData.blockchain.difficulty } : MetricPoint)]).length > 20
    · rw [if_pos hlen] at hp
      exact List.drop_subset _ _ hp
    · rw [if_neg hlen] at hp
      exact hp
  rcases List.mem_append.mp hmem with hold | hnew
  · exact hs p hold
  · rcases List.mem_singleton.mp hnew with rfl
    rfl

/-- C7: when the hash-rate sample buffer (after the current sample is pushed
and the buffer trimmed to 20) holds at least 5 samples and the average of
the last 3 samples exceeds 3 times the average of all earlier samples, the
surge detector appends exactly one CRITICAL HASHRATE_SURGE alert; otherwise
it appends no alert at all. -/
theorem C7_hashrate_surge (currentData : CurrentData) (st : WState)
    (hs : ∀ p ∈ st.metrics.hashRate, (p.hashrate).isSome = true) :
    (surgeCondition (hashHistAfter currentData st) →
      ((checkHashrateAnomalies currentData st).alerts.head?.map
          (fun a => (a.type, a.severity, a.acknowledged)) =
        some (AlertType.HASHRATE_SURGE, Severity.CRITICAL, false)) ∧
      (checkHashrateAnomalies currentData st).alerts.tail = st.alerts.take 999) ∧
    (¬ surgeCondition (hashHistAfter currentData st) →
      (checkHashrateAnomalies currentData st).alerts = st.alerts) ∧
    (checkHashrateAnomalies currentData st).metrics.hashRate =
      hashHistAfter currentData st := by
  have hall := hashHistAfter_isSome currentData st hs
  have hrecent : ∀ p ∈ sliceLast 3 (hashHistAfter currentData st),
      (p.hashrate).isSome = true :=
    fun p hp => hall p (List.drop_subset _ _ hp)
  have hbase : ∀ p ∈ (hashHistAfter currentData st).take
      ((hashHistAfter currentData st).length - 3), (p.hashrate).isSome = true :=
    fun p hp => hall p (List.take_subset _ _ hp)
  have hravg : calculateAverage ((sliceLast 3 (hashHistAfter currentData st)).map
      (fun h => h.hashrate)) =
      some (avgQ ((sliceLast 3 (hashHistAfter currentData st)).filterMap
        (fun h => h.hashrate))) := by
    rw [map_eq_filterMap_of_isSome _ _ hrecent, calculateAverage_map_some]
  have hbavg : calculateAverage (((hashHistAfter currentData st).take
      ((hashHistAfter currentData st).length - 3)).map (fun h => h.hashrate)) =
      some (avgQ (((hashHistAfter currentData st).take
        ((hashHistAfter currentData st).length - 3)).filterMap
          (fun h => h.hashrate))) := by
    rw [map_eq_filterMap_of_isSome _ _ hbase, calculateAverage_map_some]
  by_cases hcond : surgeCondition (hashHistAfter currentData st)
  · have hc5 : (hashHistAfter currentData st).length ≥ 5 := hcond.1
    have hcgt : jsGt (calculateAverage ((sliceLast 3 (hashHistAfter currentData st)).map
        (fun h => h.hashrate)))
        (jsMul (calculateAverage (((hashHistAfter currentData st).take
          ((hashHistAfter currentData st).length - 3)).map (fun h => h.hashrate)))
          (some 3)) = true := by
      rw [hravg, hbavg, jsMul, jsGt]
      refine decide_eq_true ?_
      have h2 := hcond.2
      linarith [h2]
    refine ⟨fun _ => ?_, fun hn => absurd hcond hn, ?_⟩
    · constructor
      · simp only [checkHashrateAnomalies]
        rw [if_pos hc5, if_pos hcgt]
        simp [createAlert, List.take_succ_cons, mkAlert]
      · simp only [checkHashrateAnomalies]
        rw [if_pos hc5, if_pos hcgt]
        simp [createAlert, List.take_succ_cons]
    · simp only [checkHashrateAnomalies]
      rw [if_pos hc5, if_pos hcgt]
      simp [createAlert]
  · have hres : checkHashrateAnomalies currentData st =
        { st with metrics :=
            { st.metrics with hashRate := hashHistAfter currentData st } } := by
      simp only [checkHashrateAnomalies]
      rw [surgeCondition, not_and_or] at hcond
      rcases hcond with h5 | hgt
      · rw [if_neg (by simpa using h5)]
      · by_cases hc5 : (hashHistAfter currentData st).length ≥ 5
        · have hfalse : jsGt (calculateAverage
              ((sliceLast 3 (hashHistAfter currentData st)).map (fun h => h.hashrate)))
              (jsMul (calculateAverage (((hashHistAfter currentData st).take
                ((hashHistAfter currentData st).length - 3)).map (fun h => h.hashrate)))
                (some 3)) = false := by
            rw [hravg, hbavg, jsMul, jsGt]
            simp only [decide_eq_false_iff_not]
            intro hlt
            exact hgt (by linarith [hlt])
          rw [if_pos hc5, if_neg (by rw [hfalse]; simp)]
        · rw [if_neg hc5]
    exact ⟨fun hc => absurd hc hcond, fun _ => by rw [hres], by rw [hres]⟩

/-- C7 witness: four 10-unit samples plus a 100-unit sample give a 5-sample
buffer whose last-3 average 40 exceeds 3 times the earlier average 10, so
exactly one CRITICAL HASHRATE_SURGE alert is appended. -/
theorem C7_hashrate_surge_witness :
    ((checkHashrateAnomalies surgeData surgeState).alerts.head?.map
        (fun a => (a.type, a.severity, a.acknowledged)) =
      some (AlertType.HASHRATE_SURGE, Severity.CRITICAL, false)) ∧
    (checkHashrateAnomalies surgeData surgeState).alerts.tail =
      surgeState.alerts.take 999 := by
  have hhist : hashHistAfter surgeData surgeState =
      [surgePoint 10, surgePoint 10, surgePoint 10, surgePoint 10,
        { hashrate := some 100, difficulty := some 1 }] := rfl
  have h := C7_hashrate_surge surgeData surgeState (by decide)
  refine h.1 ⟨by rw [hhist]; norm_num, ?_⟩
  rw [hhist]
  show 3 * avgQ ((([surgePoint 10, surgePoint 10, surgePoint 10, surgePoint 10,
      ({ hashrate := some 100, difficulty := some 1 } : MetricPoint)]).take (5 - 3)).filterMap
        (fun h => h.hashrate)) <
    avgQ ((sliceLast 3 [surgePoint 10, surgePoint 10, surgePoint 10, surgePoint 10,
      ({ hashrate := some 100, difficulty := some 1 } : MetricPoint)]).filterMap
        (fun h => h.hashrate))
  norm_num [avgQ, sliceLast, surgePoint, List.filterMap]

/-- C8 counterexample: a baseline computation that succeeds (it replaces the
whole structure, as the updated `lastCalculated` shows) while the very first
block-time sampling step fails stores `avgBlockTime = 0`, not a strictly
positive value. -/
theorem C8_counterexample_zero_avg :
    (calculateBaselines (Except.ok niC8) [none] "2024-01-01"
        (mkWatchdog [])).baselines.lastCalculated = some "2024-01-01" ∧
    ¬ ∃ q, (calculateBaselines (Except.ok niC8) [none] "2024-01-01"
        (mkWatchdog [])).baselines.avgBlockTime = some q ∧ 0 < q := by
  refine ⟨rfl, ?_⟩
  rintro ⟨q, hq, hqpos⟩
  have h0 : (calculateBaselines (Except.ok niC8) [none] "2024-01-01"
      (mkWatchdog [])).baselines.avgBlockTime = some (0 : ℚ) := rfl
  have hq0 : (0 : ℚ) = q := Option.some.inj (h0.symm.trans hq)
  rw [← hq0] at hqpos
  exact lt_irrefl 0 hqpos

/-- C8 amended: after a successful baseline computation `avgBlockTime` equals
the average of the sampled inter-block intervals, and it is strictly positive
whenever at least one interval was sampled and every sampled interval is
positive (when the sampling loop collects nothing it is 0 instead). -/
theorem C8_amended_avg_block_time (nodeInfo : NodeInfo)
    (blockTimeFetch : List (Option (Int × Int))) (now : String) (st : WState)
    (hne : getRecentBlockTimes (Nat.min 100 10) blockTimeFetch ≠ [])
    (hpos : ∀ t ∈ getRecentBlockTimes (Nat.min 100 10) blockTimeFetch, 0 < t) :
    (calculateBaselines (Except.ok nodeInfo) blockTimeFetch now st).baselines.avgBlockTime =
      some (avgQ ((getRecentBlockTimes (Nat.min 100 10) blockTimeFetch).map
        (fun (t : Int) => ((t : ℚ))))) ∧
    0 < avgQ ((getRecentBlockTimes (Nat.min 100 10) blockTimeFetch).map
      (fun (t : Int) => ((t : ℚ)))) := by
  constructor
  · show calculateAverage ((getRecentBlockTimes (Nat.min 100 10) blockTimeFetch).map
      (fun (t : Int) => some ((t : ℚ)))) = _
    have hmm : (getRecentBlockTimes (Nat.min 100 10) blockTimeFetch).map
        (fun (t : Int) => some ((t : ℚ))) =
        ((getRecentBlockTimes (Nat.min 100 10) blockTimeFetch).map
          (fun (t : Int) => ((t : ℚ)))).map some := by
      rw [List.map_map]
      rfl
    rw [hmm, calculateAverage_map_some]
  · have hnil : (getRecentBlockTimes (Nat.min 100 10) blockTimeFetch).map
        (fun (t : Int) => ((t : ℚ))) ≠ [] := fun h => hne (by simpa using h)
    have hp : ∀ x ∈ (getRecentBlockTimes (Nat.min 100 10) blockTimeFetch).map
        (fun (t : Int) => ((t : ℚ))), 0 < x := by
      intro x hx
      rw [List.mem_map] at hx
      obtain ⟨t, ht, hxe⟩ := hx
      rw [← hxe]
      exact_mod_cast hpos t ht
    have hsum := List.sum_pos _ hp hnil
    have hlen : 0 < ((getRecentBlockTimes (Nat.min 100 10) blockTimeFetch).map
        (fun (t : Int) => ((t : ℚ)))).length := List.length_pos.mpr hnil
    rw [avgQ]
    exact div_pos hsum (by exact_mod_cast hlen)

/-- C8 amended witness: one successful sampling step with block times 120 and
60 yields `avgBlockTime = 60 > 0`. -/
theorem C8_amended_avg_block_time_witness :
    (calculateBaselines (Except.ok niC8) [some (120, 60)] "t"
        (mkWatchdog [])).baselines.avgBlockTime =
      some (avgQ ((getRecentBlockTimes (Nat.min 100 10) [some (120, 60)]).map
        (fun (t : Int) => ((t : ℚ))))) ∧
    0 < avgQ ((getRecentBlockTimes (Nat.min 100 10) [some (120, 60)]).map
      (fun (t : Int) => ((t : ℚ)))) :=
  C8_amended_avg_block_time niC8 [some (120, 60)] "t" (mkWatchdog [])
    (by decide) (by decide)

theorem runTicksMetrics_buffers (ds : List CurrentData) (st : WState) (hne : ds ≠ []) :
    (runTicksMetrics ds st).metrics.hashRate =
        sliceLast 100 (st.metrics.hashRate ++ ds.map hashRatePoint) ∧
    (runTicksMetrics ds st).metrics.difficulty =
        sliceLast 100 (st.metrics.difficulty ++ ds.map difficultyPoint) ∧
    (runTicksMetrics ds st).metrics.mempool =
        sliceLast 100 (st.metrics.mempool ++ ds.map mempoolPoint) ∧
    (runTicksMetrics ds st).metrics.networkNodes =
        sliceLast 100 (st.metrics.networkNodes ++ ds.map networkNodesPoint) := by
  induction ds generalizing st with
  | nil => cases hne rfl
  | cons d ds ih =>
    cases ds with
    | nil =>
      refine ⟨?_, ?_, ?_, ?_⟩ <;>
        simp only [runTicksMetrics, List.foldl_cons, List.foldl_nil, List.map_cons,
          List.map_nil, updateMetrics]
    | cons d2 ds2 =>
      have h := ih (updateMetrics d st) (by simp)
      have hstep : runTicksMetrics (d :: d2 :: ds2) st =
          runTicksMetrics (d2 :: ds2) (updateMetrics d st) := by
        rw [runTicksMetrics, runTicksMetrics, List.foldl_cons]
      rw [hstep]
      refine ⟨?_, ?_, ?_, ?_⟩
      · rw [h.1,
          show (updateMetrics d st).metrics.hashRate =
            sliceLast 100 (st.metrics.hashRate ++ [hashRatePoint d]) from rfl,
          sliceLast_append_absorb, List.append_assoc]
        rfl
      · rw [h.2.1,
          show (updateMetrics d st).metrics.difficulty =
            sliceLast 100 (st.metrics.difficulty ++ [difficultyPoint d]) from rfl,
          sliceLast_append_absorb, List.append_assoc]
        rfl
      · rw [h.2.2.1,
          show (updateMetrics d st).metrics.mempool =
            sliceLast 100 (st.metrics.mempool ++ [mempoolPoint d]) from rfl,
          sliceLast_append_absorb, List.append_assoc]
        rfl
      · rw [h.2.2.2,
          show (updateMetrics d st).metrics.networkNodes =
            sliceLast 100 (st.metrics.networkNodes ++ [networkNodesPoint d]) from rfl,
          sliceLast_append_absorb, List.append_assoc]
        rfl

/-- C9: under iterated ticks each of the four metric ring buffers equals the
last-100 suffix of everything ever inserted into it (in insertion order,
oldest evicted first), never exceeds 100 entries when it started within
capacity, and after at least 100 insertions holds exactly the last 100
insertions. -/
theorem C9_ring_buffers (ds : List CurrentData) (st : WState) :
    (ds ≠ [] →
      (runTicksMetrics ds st).metrics.hashRate =
          sliceLast 100 (st.metrics.hashRate ++ ds.map hashRatePoint) ∧
      (runTicksMetrics ds st).metrics.difficulty =
          sliceLast 100 (st.metrics.difficulty ++ ds.map difficultyPoint) ∧
      (runTicksMetrics ds st).metrics.mempool =
          sliceLast 100 (st.metrics.mempool ++ ds.map mempoolPoint) ∧
      (runTicksMetrics ds st).metrics.networkNodes =
          sliceLast 100 (st.metrics.networkNodes ++ ds.map networkNodesPoint)) ∧
    (st.metrics.hashRate.length ≤ 100 ∧ st.metrics.difficulty.length ≤ 100 ∧
        st.metrics.mempool.length ≤ 100 ∧ st.metrics.networkNodes.length ≤ 100 →
      (runTicksMetrics ds st).metrics.hashRate.length ≤ 100 ∧
      (runTicksMetrics ds st).metrics.difficulty.length ≤ 100 ∧
      (runTicksMetrics ds st).metrics.mempool.length ≤ 100 ∧
      (runTicksMetrics ds st).metrics.networkNodes.length ≤ 100) ∧
    (100 ≤ ds.length →
      ((runTicksMetrics ds st).metrics.hashRate =
          sliceLast 100 (ds.map hashRatePoint) ∧
        (runTicksMetrics ds st).metrics.hashRate.length = 100) ∧
      ((runTicksMetrics ds st).metrics.difficulty =
          sliceLast 100 (ds.map difficultyPoint) ∧
        (runTicksMetrics ds st).metrics.difficulty.length = 100) ∧
      ((runTicksMetrics ds st).metrics.mempool =
          sliceLast 100 (ds.map mempoolPoint) ∧
        (runTicksMetrics ds st).metrics.mempool.length = 100) ∧
      ((runTicksMetrics ds st).metrics.networkNodes =
          sliceLast 100 (ds.map networkNodesPoint) ∧
        (runTicksMetrics ds st).metrics.networkNodes.length = 100)) := by
  refine ⟨fun hne => runTicksMetrics_buffers ds st hne, ?_, ?_⟩
  · intro hinit
    cases ds with
    | nil => exact hinit
    | cons d ds =>
      have hb := runTicksMetrics_buffers (d :: ds) st (by simp)
      refine ⟨?_, ?_, ?_, ?_⟩
      · rw [hb.1, sliceLast_length]
        omega
      · rw [hb.2.1, sliceLast_length]
        omega
      · rw [hb.2.2.1, sliceLast_length]
        omega
      · rw [hb.2.2.2, sliceLast_length]
        omega
  · intro h100
    have hne : ds ≠ [] := by
      intro h
      rw [h] at h100
      simp at h100
    have hb := runTicksMetrics_buffers ds st hne
    have hlenmap : ∀ (f : CurrentData → MetricPoint), 100 ≤ (ds.map f).length := by
      intro f
      rw [List.length_map]
      omega
    refine ⟨⟨?_, ?_⟩, ⟨?_, ?_⟩, ⟨?_, ?_⟩, ⟨?_, ?_⟩⟩
    · rw [hb.1, sliceLast_append_right 100 _ _ (hlenmap _)]
    · rw [hb.1, sliceLast_append_right 100 _ _ (hlenmap _), sliceLast_length,
        List.length_map]
      omega
    · rw [hb.2.1, sliceLast_append_right 100 _ _ (hlenmap _)]
    · rw [hb.2.1, sliceLast_append_right 100 _ _ (hlenmap _), sliceLast_length,
        List.length_map]
      omega
    · rw [hb.2.2.1, sliceLast_append_right 100 _ _ (hlenmap _)]
    · rw [hb.2.2.1, sliceLast_append_right 100 _ _ (hlenmap _), sliceLast_length,
        List.length_map]
      omega
    · rw [hb.2.2.2, sliceLast_append_right 100 _ _ (hlenmap _)]
    · rw [hb.2.2.2, sliceLast_append_right 100 _ _ (hlenmap _), sliceLast_length,
        List.length_map]
      omega

/-- C9 witness: 100 ticks from a fresh watchdog leave each ring buffer at
exactly its capacity of 100 entries. -/
theorem C9_ring_buffers_witness :
    (runTicksMetrics (List.replicate 100 surgeData) (mkWatchdog [])).metrics.hashRate.length =
      100 := by
  have h := (C9_ring_buffers (List.replicate 100 surgeData) (mkWatchdog [])).2.2
    (by rw [List.length_replicate])
  exact h.1.2

/-- C10 amended: the RPC retry wrapper never retries a 401 authentication
failure: at whatever attempt such a failure occurs, it propagates that very
error immediately with no further attempts.  The baseline node-readiness
wait, by contrast, retries every failure, a 401 authentication failure
included, whenever attempts remain. -/
theorem C10_amended_auth_retry :
    (∀ (α : Type) (outcomes : Nat → Except JsError α)
      (maxRetries attempt remaining : Nat) (e : JsError),
      outcomes attempt = Except.error e → errCode e = some 401 →
      retryAux outcomes maxRetries attempt remaining = (Except.error e, attempt)) ∧
    (∀ (outcomes : Nat → Except JsError Unit) (maxRetries attempt r : Nat)
      (e : JsError), outcomes attempt = Except.error e →
      waitAux outcomes maxRetries attempt (r + 1) =
        waitAux outcomes maxRetries (attempt + 1) r) := by
  constructor
  · intro α outcomes maxRetries attempt remaining e h h401
    cases remaining with
    | zero =>
      conv_lhs => rw [retryAux]
      rw [h]
    | succ r =>
      conv_lhs => rw [retryAux]
      rw [h]
      show (if errCode e = some 401 then (Except.error e, attempt)
        else retryAux outcomes maxRetries (attempt + 1) r) = (Except.error e, attempt)
      rw [if_pos h401]
  · intro outcomes maxRetries attempt r e h
    conv_lhs => rw [waitAux]
    rw [h]

/-- C10 amended witness: with every attempt failing with the 401 error, the
retry wrapper returns the 401 error on attempt 1 without retrying, while the
node-readiness wait proceeds from attempt 1 to attempt 2. -/
theorem C10_amended_auth_retry_witness :
    retryAux out401 10 1 9 = (Except.error (JsError.rpc authErrInfo), 1) ∧
    waitAux out401 10 1 9 = waitAux out401 10 2 8 := by
  have h := C10_amended_auth_retry
  exact ⟨h.1 Unit out401 10 1 9 (JsError.rpc authErrInfo) rfl rfl,
    h.2 out401 10 1 8 (JsError.rpc authErrInfo) rfl⟩

/-- C10 counterexample: when every liveness probe fails with the 401
authentication error, `waitForNodeReady` does not propagate the first 401
immediately: it makes all 10 configured attempts and then throws the generic
not-ready error instead of the authentication error. -/
theorem C10_counterexample_wait_retries_auth :
    (waitForNodeReady out401 10).2 = 10 ∧
    ¬ (waitForNodeReady out401 10).2 = 1 ∧
    (waitForNodeReady out401 10).1 =
      Except.error (JsError.generic "Dogecoin node not ready after 10 attempts") := by
  refine ⟨rfl, ?_, rfl⟩
  intro h
  rw [show (waitForNodeReady out401 10).2 = 10 from rfl] at h
  exact absurd h (by decide)

end DogecoinWatchdog
